import Mathlib

/-!
Shallow embedding of the orchestration core of `src/app.py` (an Azure video
retrieval app): query construction (`search_videos`, lines 75-97), result
handling (lines 156-167), document resolution and playable-URL composition
(`get_video_url`, lines 101-127), session reset on mode change
(`reset_search`, lines 136-143), and the timestamp-to-seconds conversion
(lines 220-227).

Python floats are modelled as rationals (ℚ); the decimal literals appearing
in the claims are exactly representable and all comparisons/arithmetic used
here agree with IEEE doubles far within the 1e-6 tolerance the spec allows.
Uncaught Python exceptions are modelled by the `Except` error branch.
-/

namespace VideoApp

/-- Uncaught Python exception kinds that the modelled code can raise:
list indexing out of range (`IndexError`), failed `int()`/`float()`
conversion (`ValueError`), and a missing DataFrame column in
`sort_values` (`KeyError`). An `Except.error` carrying one of these models
an exception propagating out of the script (Streamlit aborts the run),
as opposed to a handled error path. -/
inductive PyExc where
  | indexError : PyExc
  | valueError : PyExc
  | keyError : String → PyExc
deriving DecidableEq, Repr

/-- Decidable equality on `Except`, used to evaluate the modelled
functions at concrete inputs. -/
instance {ε α : Type} [DecidableEq ε] [DecidableEq α] : DecidableEq (Except ε α) := fun x y =>
  match x, y with
  | .ok a, .ok b =>
    if h : a = b then .isTrue (by rw [h]) else .isFalse (by simp [h])
  | .error e, .error f =>
    if h : e = f then .isTrue (by rw [h]) else .isFalse (by simp [h])
  | .ok _, .error _ => .isFalse (by simp)
  | .error _, .ok _ => .isFalse (by simp)

/-- Python `str.split(sep)` for a one-character separator: splits on every
occurrence, keeping empty fragments; the result is always nonempty
(`"".split(":") == [""]`). -/
def pySplit (sep : Char) : List Char → List (List Char)
  | [] => [[]]
  | c :: cs =>
    match pySplit sep cs with
    | [] => if c = sep then [[], []] else [[c]]
    | g :: gs => if c = sep then [] :: g :: gs else (c :: g) :: gs

/-- Value of a list of decimal digit characters. -/
def digitsToNat (l : List Char) : ℕ :=
  l.foldl (fun n c => 10 * n + (c.toNat - 48)) 0

/-- Python `int(s)` on the decimal forms exercised by the app: an optional
minus sign followed by one or more digits; anything else raises
`ValueError`. (Whitespace stripping, underscores and a leading plus sign
are outside the modelled domain.) -/
def pyInt : List Char → Except PyExc ℤ
  | '-' :: rest =>
    if !rest.isEmpty && rest.all Char.isDigit then .ok (-(digitsToNat rest : ℤ))
    else .error .valueError
  | s =>
    if !s.isEmpty && s.all Char.isDigit then .ok (digitsToNat s : ℤ)
    else .error .valueError

/-- Magnitude part of Python `float(s)`: digits with at most one decimal
point and at least one digit overall (`"5."`, `".5"`, `"5"`, `"5.25"`);
anything else — including a second point as in `"1.2.3"` or an empty
string — raises `ValueError`. -/
def pyFloatMag (s : List Char) : Except PyExc ℚ :=
  match pySplit '.' s with
  | [ip] =>
    if !ip.isEmpty && ip.all Char.isDigit then .ok (digitsToNat ip : ℚ)
    else .error .valueError
  | [ip, fp] =>
    if (ip.all Char.isDigit && fp.all Char.isDigit) && !(ip.isEmpty && fp.isEmpty) then
      .ok ((digitsToNat ip : ℚ) + (digitsToNat fp : ℚ) / (10 : ℚ) ^ fp.length)
    else .error .valueError
  | _ => .error .valueError

/-- Python `float(s)` on plain decimal literals (optional minus sign, no
exponent/inf/nan forms, which the timestamp domain never produces). -/
def pyFloat : List Char → Except PyExc ℚ
  | '-' :: rest =>
    match pyFloatMag rest with
    | .ok q => .ok (-q)
    | .error e => .error e
  | s => pyFloatMag s

/-- Python list indexing `l[i]` for a nonnegative index: raises
`IndexError` when the index is out of range. -/
def pyIndex {α : Type} : List α → ℕ → Except PyExc α
  | [], _ => .error .indexError
  | a :: _, 0 => .ok a
  | _ :: l, n + 1 => pyIndex l n

/-- Lines 220-225 of `src/app.py`:
`best_time_parts = selected_video["best_time"].split(":")` followed by
`int(best_time_parts[0]) * 3600 + int(best_time_parts[1]) * 60 +
float(best_time_parts[2])`, with Python's left-to-right evaluation order
(each index is read just before it is converted). -/
def best_time_seconds (best_time : String) : Except PyExc ℚ := do
  let best_time_parts := pySplit ':' best_time.data
  let p0 ← pyIndex best_time_parts 0
  let h ← pyInt p0
  let p1 ← pyIndex best_time_parts 1
  let m ← pyInt p1
  let p2 ← pyIndex best_time_parts 2
  let s ← pyFloat p2
  return (h : ℚ) * 3600 + (m : ℚ) * 60 + s

/-- Python `int(x)` on a float: truncation toward zero. -/
def pyTrunc (q : ℚ) : ℤ :=
  if 0 ≤ q then ⌊q⌋ else -⌊-q⌋

/-- Line 227 of `src/app.py`: the seek offset handed to the player,
`st.video(video_url, start_time=int(best_time_seconds), autoplay=True)`. -/
def playback_start_time (best_time : String) : Except PyExc ℤ :=
  (best_time_seconds best_time).map pyTrunc

/-- One record of the search response's `value` list (spec: MatchRecord).
Relevance is a JSON number, modelled as ℚ. -/
structure MatchRecord where
  documentId : String
  documentKind : String
  relevance : ℚ
  start : String
  «end» : String
  best : String
deriving DecidableEq

/-- Ascending comparison on the `relevance` column, the sort key of
`sort_values(by="relevance")`. -/
def relLE (a b : MatchRecord) : Prop := a.relevance ≤ b.relevance

instance : DecidableRel relLE := fun a b => inferInstanceAs (Decidable (a.relevance ≤ b.relevance))

instance : IsTotal MatchRecord relLE := ⟨fun a b => le_total a.relevance b.relevance⟩

instance : IsTrans MatchRecord relLE := ⟨fun _ _ _ hab hbc => le_trans hab hbc⟩

/-- Line 162-164 of `src/app.py`:
`pd.DataFrame(results["value"]).sort_values(by="relevance", ascending=False)`.
pandas sorts a single column by computing an ascending argsort of the key
with the requested kind (default `"quicksort"`, numpy's introsort) and, for
`ascending=False`, reversing the whole indexer (`nargsort`). numpy falls
back to insertion sort below its 16-element cutoff, so for fewer than 16
rows the ascending argsort is exactly the stable sort modelled here by
`List.insertionSort` and this model is exact. For larger inputs introsort
is unstable: the order within an equal-relevance tie is deterministic but
unspecified, so this model fixes one admissible tie order, and only
tie-order-independent properties — which rows occur with what multiplicity,
and the non-increasing relevance order — are asserted of the program at
those sizes (the tie-order theorem below is restricted to fewer than 16
records accordingly). On a zero-record list, `pd.DataFrame([])` has no
columns at all and `sort_values(by="relevance")` raises `KeyError:
'relevance'`; on a nonempty record list the column exists. -/
def sort_values_relevance_desc (records : List MatchRecord) : Except PyExc (List MatchRecord) :=
  if records.isEmpty then .error (.keyError "relevance")
  else .ok (List.insertionSort relLE records).reverse

/-- Request payload built at lines 59-71 and 82-88 of `src/app.py`: the
`query_by_speech` template (featureFilters `["speech"]`) is chosen when
`query_type == "Speech"`, the `query_by_text` template (featureFilters
`["vision"]`) otherwise, with `queryText` set to the user's query. -/
structure InputQuery where
  queryText : String
  featureFilters : List String
deriving DecidableEq

/-- Lines 82-88 of `src/app.py`: select and fill the query template. -/
def input_query (query : String) (query_type : String) : InputQuery :=
  if query_type = "Speech" then ⟨query, ["speech"]⟩ else ⟨query, ["vision"]⟩

/-- Body of the search response as far as the caller inspects it: `some v`
models a parsed JSON object carrying a `value` list `v`; `none` models any
body without a usable `value` field (in which case the caller's test
`results and "value" in results` is false whether or not the dict is
truthy). -/
abbrev SearchResponse : Type := Option (List MatchRecord)

/-- Outcome of `requests.post`: either a response with an HTTP status code
and parsed body, or an exception raised by the transport. -/
inductive HttpOutcome where
  | response (status : ℕ) (body : SearchResponse)
  | exn
  deriving DecidableEq

/-- Lines 89-97 of `src/app.py` (`search_videos`): one blocking POST of the
built payload; `response.raise_for_status()` raises for status codes
400-599; any exception (transport failure or error status) is caught and
`None` is returned, otherwise `response.json()` is returned. The transport
is a parameter mapping the request payload to its outcome. -/
def search_videos (query : String) (query_type : String)
    (transport : InputQuery → HttpOutcome) : Option SearchResponse :=
  match transport (input_query query query_type) with
  | .response status body =>
    if 400 ≤ status ∧ status ≤ 599 then none else some body
  | .exn => none

/-- Result of the search-button block, lines 156-167 of `src/app.py`:
what gets stored in `st.session_state.search_results`, and whether
`st.write("No results found.")` ran. -/
structure SearchUpdate where
  search_results : Option (List MatchRecord)
  no_results_message : Bool
deriving DecidableEq

/-- Lines 161-167 of `src/app.py`: `if results and "value" in results:`
store the relevance-sorted DataFrame, `else` store `None` and write
"No results found.". A `KeyError` from `sort_values` propagates (the
Streamlit script run aborts with an exception). -/
def handle_search_results (results : Option SearchResponse) : Except PyExc SearchUpdate :=
  match results with
  | some (some v) =>
    match sort_values_relevance_desc v with
    | .ok sorted => .ok ⟨some sorted, false⟩
    | .error e => .error e
  | _ => .ok ⟨none, true⟩

/-- The `st.session_state.selected_video` dict built at lines 193-199. -/
structure SelectedVideo where
  document_id : String
  best_time : String
  start_time : String
  end_time : String
  document_kind : String
deriving DecidableEq

/-- The session-lived state of the app: `st.session_state.search_results`,
`st.session_state.selected_video`, and the current value of the
`search_type` radio widget. -/
structure SessionState where
  search_results : Option (List MatchRecord)
  selected_video : Option SelectedVideo
  search_type : String
deriving DecidableEq

/-- Lines 136-138 of `src/app.py`: `reset_search` sets both
`st.session_state.search_results` and `st.session_state.selected_video`
to `None`. -/
def reset_search (s : SessionState) : SessionState :=
  { s with search_results := none, selected_video := none }

/-- Lines 141-143 of `src/app.py`: the `search_type` radio is declared with
`on_change=reset_search`, so picking a different mode runs `reset_search`
and updates the widget value; picking the same value changes nothing. -/
def change_search_type (s : SessionState) (new_type : String) : SessionState :=
  if new_type = s.search_type then s
  else { reset_search s with search_type := new_type }

/-- One entry of the document-listing response's `value` list, as far as
`get_video_url` reads it. -/
structure CatalogDoc where
  documentId : String
  documentUrl : String
deriving DecidableEq

/-- Lines 123-125 of `src/app.py`: the string
`document.get("documentUrl") + "?start=" + best_time + "&" + sas_token`. -/
def sas_url (documentUrl best_time sas_token : String) : String :=
  documentUrl ++ "?start=" ++ best_time ++ "&" ++ sas_token

/-- Modelled from the spec (§4.5): `composeUrl(baseUrl, startTime, token) =
baseUrl + "?start=" + startTime + "&" + token`, to be compared with the
source-side composition `sas_url`. -/
def composeUrl (baseUrl startTime token : String) : String :=
  baseUrl ++ "?start=" ++ startTime ++ "&" ++ token

/-- Lines 101-127 of `src/app.py` (`get_video_url`), instrumented with a
flag recording whether the URL composition at lines 123-125 was evaluated.
The loop scans the document listing in order; on the first entry whose
`documentId` matches it calls `generate_container_sas` (an external signing
operation, passed in as its outcome `sas`): if signing raises, `None` is
returned without composing a URL, otherwise the composed SAS URL is
returned. If no entry matches, the loop ends and the function implicitly
returns `None`, never reaching the composition. -/
def get_video_url_traced (documents : List CatalogDoc) (document_id best_time : String)
    (sas : Except String String) : Option String × Bool :=
  match documents with
  | [] => (none, false)
  | document :: rest =>
    if document.documentId = document_id then
      match sas with
      | .error _ => (none, false)
      | .ok sas_token => (some (sas_url document.documentUrl best_time sas_token), true)
    else get_video_url_traced rest document_id best_time sas

/-- Value returned by `get_video_url`: the first component of the traced
version (`None` models both the not-found fall-through and the signing
failure return). -/
def get_video_url (documents : List CatalogDoc) (document_id best_time : String)
    (sas : Except String String) : Option String :=
  (get_video_url_traced documents document_id best_time sas).1

/-- Two records with equal relevance, used to analyse tie handling. -/
def recA : MatchRecord :=
  ⟨"docA", "video", 1/2, "00:00:01", "00:00:02", "00:00:01"⟩

/-- Second record of the equal-relevance pair; arrives after `recA`. -/
def recB : MatchRecord :=
  ⟨"docB", "video", 1/2, "00:00:03", "00:00:04", "00:00:03"⟩

/-- Record with relevance 0.3 (spec example, arrival position 0). -/
def rec03 : MatchRecord :=
  ⟨"doc03", "video", 3/10, "00:00:01", "00:00:02", "00:00:01"⟩

/-- Record with relevance 0.9 (spec example, arrival position 1). -/
def rec09 : MatchRecord :=
  ⟨"doc09", "video", 9/10, "00:00:03", "00:00:04", "00:00:03"⟩

/-- Record with relevance 0.5 (spec example, arrival position 2). -/
def rec05 : MatchRecord :=
  ⟨"doc05", "video", 5/10, "00:00:05", "00:00:06", "00:00:05"⟩

end VideoApp

namespace VideoApp

/-! Shared lemmas about the embedded helpers. -/

/-- Result of `pySplit` is never the empty list. -/
theorem pySplit_ne_nil (sep : Char) : ∀ l : List Char, pySplit sep l ≠ []
  | [] => by simp [pySplit]
  | c :: t => by
    unfold pySplit
    cases pySplit sep t <;> by_cases hc : c = sep <;> simp [hc]

/-- Splitting a fragment that does not contain the separator yields just
that fragment. -/
theorem pySplit_no_sep {sep : Char} : ∀ {l : List Char}, sep ∉ l → pySplit sep l = [l]
  | [], _ => rfl
  | c :: t, h => by
    have hc : ¬c = sep := fun e => h (e ▸ List.mem_cons_self c t)
    have ht : sep ∉ t := fun m => h (List.mem_cons_of_mem c m)
    simp [pySplit, pySplit_no_sep ht, hc]

/-- Splitting peels off a separator-free fragment before a separator. -/
theorem pySplit_append {sep : Char} {rest : List Char} :
    ∀ {l1 : List Char}, sep ∉ l1 →
      pySplit sep (l1 ++ sep :: rest) = l1 :: pySplit sep rest
  | [], _ => by
    cases h : pySplit sep rest with
    | nil => exact absurd h (pySplit_ne_nil sep rest)
    | cons g gs =>
      rw [List.nil_append, pySplit, h]
      simp
  | c :: t, h => by
    have hc : ¬c = sep := fun e => h (e ▸ List.mem_cons_self c t)
    have ht : sep ∉ t := fun m => h (List.mem_cons_of_mem c m)
    rw [List.cons_append, pySplit, pySplit_append ht]
    simp [hc]

/-- Inserting an element of the filtered class puts it in front of the
other members of the class (insertion stops at the first list element the
new one compares `≤` to, and everything it walks past is outside the
class). -/
theorem filter_orderedInsert_pos {α : Type} (r : α → α → Prop) [DecidableRel r]
    (p : α → Bool) (a : α) (ha : p a = true)
    (hab : ∀ b, p b = true → r a b) :
    ∀ l : List α, (l.orderedInsert r a).filter p = a :: l.filter p
  | [] => by simp [List.orderedInsert, ha]
  | b :: l => by
    by_cases hr : r a b
    · simp [List.orderedInsert, hr, List.filter_cons, ha]
    · have hpb : p b = false := by
        cases hpb : p b with
        | true => exact absurd (hab b hpb) hr
        | false => rfl
      simp [List.orderedInsert, hr, List.filter_cons, hpb,
        filter_orderedInsert_pos r p a ha hab l]

/-- Inserting an element outside the filtered class leaves the filtered
class unchanged. -/
theorem filter_orderedInsert_neg {α : Type} (r : α → α → Prop) [DecidableRel r]
    (p : α → Bool) (a : α) (ha : p a = false) :
    ∀ l : List α, (l.orderedInsert r a).filter p = l.filter p
  | [] => by simp [List.orderedInsert, ha]
  | b :: l => by
    by_cases hr : r a b
    · simp [List.orderedInsert, hr, List.filter_cons, ha]
    · simp [List.orderedInsert, hr, List.filter_cons,
        filter_orderedInsert_neg r p a ha l]

/-- Stability of insertion sort, filter form: the subsequence of any class
of mutually `≤`-related elements (for us: one relevance value) is exactly
preserved. -/
theorem filter_insertionSort {α : Type} (r : α → α → Prop) [DecidableRel r]
    (p : α → Bool) (hp : ∀ x y, p x = true → p y = true → r x y) :
    ∀ l : List α, (List.insertionSort r l).filter p = l.filter p
  | [] => rfl
  | b :: l => by
    cases hpb : p b with
    | true =>
      rw [List.insertionSort,
        filter_orderedInsert_pos r p b hpb (fun y hy => hp b y hpb hy),
        filter_insertionSort r p hp l]
      simp [List.filter_cons, hpb]
    | false =>
      rw [List.insertionSort, filter_orderedInsert_neg r p b hpb,
        filter_insertionSort r p hp l]
      simp [List.filter_cons, hpb]

/-! Claim theorems. -/

/-- C7: for every timestamp string of shape HH:MM:SS[.fraction] with
nonnegative numeric components, `best_time_seconds` returns
hours*3600 + minutes*60 + seconds; in particular "01:02:03" converts to
3723 and "00:00:11.0110000" converts to exactly 11011/1000 = 11.011
(within any tolerance, in particular the spec's 1e-6). -/
theorem best_time_seconds_formula :
    (∀ (sh sm ss : List Char) (h m : ℤ) (s : ℚ),
      ':' ∉ sh → ':' ∉ sm → ':' ∉ ss →
      pyInt sh = .ok h → pyInt sm = .ok m → pyFloat ss = .ok s →
      0 ≤ h → 0 ≤ m → 0 ≤ s →
      best_time_seconds ⟨sh ++ ':' :: (sm ++ ':' :: ss)⟩
        = .ok ((h : ℚ) * 3600 + (m : ℚ) * 60 + s))
    ∧ best_time_seconds "01:02:03" = .ok 3723
    ∧ best_time_seconds "00:00:11.0110000" = .ok (11011 / 1000) := by
  refine ⟨?_, ?_, ?_⟩
  · intro sh sm ss h m s h1 h2 h3 hh hm hs _ _ _
    have e1 : pySplit ':' (sh ++ ':' :: (sm ++ ':' :: ss)) = [sh, sm, ss] := by
      rw [pySplit_append h1, pySplit_append h2, pySplit_no_sep h3]
    simp [best_time_seconds, e1, pyIndex, hh, hm, hs, bind, Except.bind, pure, Except.pure]
  · simp [best_time_seconds, pySplit, pyIndex, pyInt, pyFloat, pyFloatMag,
      digitsToNat, bind, Except.bind, pure, Except.pure]
    norm_num
  · simp [best_time_seconds, pySplit, pyIndex, pyInt, pyFloat, pyFloatMag,
      digitsToNat, bind, Except.bind, pure, Except.pure]
    norm_num

/-- C7 witness: the general formula applied to the concrete components
"01", "02", "03". -/
theorem best_time_seconds_formula_witness :
    best_time_seconds ⟨['0', '1'] ++ ':' :: (['0', '2'] ++ ':' :: ['0', '3'])⟩
      = .ok ((1 : ℤ) * 3600 + ((2 : ℤ) : ℚ) * 60 + 3) :=
  best_time_seconds_formula.1 ['0', '1'] ['0', '2'] ['0', '3'] 1 2 3
    (by decide) (by decide) (by decide)
    (by decide) (by decide)
    (by simp [pyFloat, pyFloatMag, pySplit, digitsToNat])
    (by norm_num) (by norm_num) (by norm_num)

/-- C3 counterexample: the claim says a timestamp splitting into more than
3 components fails with FormatError; in the code, "1:2:3:4" does not fail
at all — the fourth component is silently ignored and the conversion
returns 3723. -/
theorem best_time_extra_components_cex :
    best_time_seconds "1:2:3:4" = .ok 3723 := by
  simp [best_time_seconds, pySplit, pyIndex, pyInt, pyFloat, pyFloatMag,
    digitsToNat, bind, Except.bind, pure, Except.pure]
  norm_num

/-- C3 (amended): a timestamp with fewer than 3 colon-separated components
makes the conversion raise an uncaught Python exception (IndexError, or
ValueError if an earlier component already fails to parse) — a crash of
the script run, not a handled FormatError; in particular "1:2" raises
IndexError. A non-numeric component raises an uncaught ValueError. With
more than 3 components there is no failure: the extras are ignored. -/
theorem best_time_malformed_behavior :
    (∀ bt : String, (pySplit ':' bt.data).length < 3 →
      ∃ e, best_time_seconds bt = .error e)
    ∧ best_time_seconds "1:2" = .error .indexError
    ∧ best_time_seconds "aa:02:03" = .error .valueError
    ∧ best_time_seconds "1:2:3:4" = .ok 3723 := by
  refine ⟨?_, ?_, ?_, ?_⟩
  · intro bt hlen
    rcases hp : pySplit ':' bt.data with _ | ⟨a, _ | ⟨b, _ | ⟨c, t⟩⟩⟩
    · exact ⟨.indexError, by simp [best_time_seconds, hp, pyIndex, bind, Except.bind]⟩
    · cases hia : pyInt a with
      | ok v =>
        exact ⟨.indexError,
          by simp [best_time_seconds, hp, pyIndex, hia, bind, Except.bind]⟩
      | error e =>
        exact ⟨e, by simp [best_time_seconds, hp, pyIndex, hia, bind, Except.bind]⟩
    · cases hia : pyInt a with
      | ok v =>
        cases hib : pyInt b with
        | ok w =>
          exact ⟨.indexError,
            by simp [best_time_seconds, hp, pyIndex, hia, hib, bind, Except.bind]⟩
        | error e =>
          exact ⟨e, by simp [best_time_seconds, hp, pyIndex, hia, hib, bind, Except.bind]⟩
      | error e =>
        exact ⟨e, by simp [best_time_seconds, hp, pyIndex, hia, bind, Except.bind]⟩
    · rw [hp] at hlen
      simp at hlen
      omega
  · simp [best_time_seconds, pySplit, pyIndex, pyInt, pyFloat, pyFloatMag,
      digitsToNat, bind, Except.bind, pure, Except.pure]
  · simp [best_time_seconds, pySplit, pyIndex, pyInt, pyFloat, pyFloatMag,
      digitsToNat, bind, Except.bind, pure, Except.pure]
  · simp [best_time_seconds, pySplit, pyIndex, pyInt, pyFloat, pyFloatMag,
      digitsToNat, bind, Except.bind, pure, Except.pure]
    norm_num

/-- C3 witness: the fewer-than-3-components case applied to "1:2". -/
theorem best_time_malformed_behavior_witness :
    ∃ e, best_time_seconds "1:2" = .error e :=
  best_time_malformed_behavior.1 "1:2" (by decide)

/-- C10: whenever the best timestamp converts to a value q ≥ 0, the seek
offset handed to `st.video` is `int(q)`, the integer truncation (= floor
for nonnegative values), so the fractional part q - ⌊q⌋ ∈ [0, 1) is
discarded at seek time. -/
theorem playback_seek_truncates :
    ∀ (bt : String) (q : ℚ), best_time_seconds bt = .ok q → 0 ≤ q →
      playback_start_time bt = .ok ⌊q⌋
        ∧ (⌊q⌋ : ℚ) ≤ q ∧ q < (⌊q⌋ : ℚ) + 1 := by
  intro bt q h hq
  refine ⟨?_, Int.floor_le q, Int.lt_floor_add_one q⟩
  simp [playback_start_time, h, Except.map, pyTrunc, hq]

/-- C10 witness: the truncation applied to the fractional conversion of
"00:00:11.0110000" (11011/1000 seconds, floor 11). -/
theorem playback_seek_truncates_witness :
    playback_start_time "00:00:11.0110000" = .ok ⌊(11011 : ℚ) / 1000⌋
      ∧ ((⌊(11011 : ℚ) / 1000⌋ : ℚ) ≤ 11011 / 1000
        ∧ (11011 : ℚ) / 1000 < (⌊(11011 : ℚ) / 1000⌋ : ℚ) + 1) :=
  playback_seek_truncates "00:00:11.0110000" (11011 / 1000)
    (by
      simp [best_time_seconds, pySplit, pyIndex, pyInt, pyFloat, pyFloatMag,
        digitsToNat, bind, Except.bind, pure, Except.pure]
      norm_num)
    (by norm_num)

/-- C1 counterexample: two records with equal relevance arrive in the
order [recA, recB]; the stored ResultSet is [recB, recA], so ties do NOT
keep their arrival order (pandas reverses a stable ascending argsort to
obtain the descending order). -/
theorem search_results_ties_not_stable_cex :
    handle_search_results (some (some [recA, recB])) = .ok ⟨some [recB, recA], false⟩
    ∧ [recB, recA] ≠ [recA, recB] := by
  constructor
  · simp [handle_search_results, sort_values_relevance_desc, List.insertionSort,
      List.orderedInsert, recA, recB, relLE]
  · intro hcontra
    simp [recA, recB] at hcontra

/-- C1 (amended): for every response whose record list has two or more
entries, the stored ResultSet is a permutation of the records sorted by
relevance in non-increasing order, but the sort is not stable: ties need
not keep their arrival order. For responses with fewer than 16 records —
where numpy's quicksort argsort is an insertion sort and the embedding is
exact — each equal-relevance class appears in the REVERSE of its arrival
order; for larger responses the tie order is left unspecified by the sort
kind the code requests. -/
theorem search_results_sorted_desc_ties_reversed :
    ∀ records : List MatchRecord, 2 ≤ records.length →
      ∃ out, handle_search_results (some (some records)) = .ok ⟨some out, false⟩
        ∧ out.Perm records
        ∧ out.Sorted (fun a b => b.relevance ≤ a.relevance)
        ∧ (records.length < 16 →
            ∀ c : ℚ, out.filter (fun r => decide (r.relevance = c))
              = (records.filter (fun r => decide (r.relevance = c))).reverse) := by
  intro records h2
  have hne : records.isEmpty = false := by
    cases records with
    | nil => simp at h2
    | cons a t => simp
  refine ⟨(List.insertionSort relLE records).reverse, ?_, ?_, ?_, ?_⟩
  · simp [handle_search_results, sort_values_relevance_desc, hne]
  · exact (List.reverse_perm _).trans (List.perm_insertionSort _ _)
  · rw [List.Sorted, List.pairwise_reverse]
    exact List.sorted_insertionSort relLE records
  · intro _hlen c
    have hp : ∀ x y : MatchRecord,
        decide (x.relevance = c) = true → decide (y.relevance = c) = true → relLE x y := by
      intro x y hx hy
      have hx2 : x.relevance = c := of_decide_eq_true hx
      have hy2 : y.relevance = c := of_decide_eq_true hy
      exact le_of_eq (hx2.trans hy2.symm)
    rw [List.filter_reverse,
      filter_insertionSort relLE (fun r => decide (r.relevance = c)) hp records]

/-- C1 witness: the amended theorem applied to the spec's example list
with relevances [0.3, 0.9, 0.5] (3 records, below the cutoff). -/
theorem search_results_sorted_desc_ties_reversed_witness :
    ∃ out, handle_search_results (some (some [rec03, rec09, rec05])) = .ok ⟨some out, false⟩
      ∧ out.Perm [rec03, rec09, rec05]
      ∧ out.Sorted (fun a b => b.relevance ≤ a.relevance)
      ∧ ([rec03, rec09, rec05].length < 16 →
          ∀ c : ℚ, out.filter (fun r => decide (r.relevance = c))
            = ([rec03, rec09, rec05].filter (fun r => decide (r.relevance = c))).reverse) :=
  search_results_sorted_desc_ties_reversed [rec03, rec09, rec05] (by simp)

/-- C2 (code bug): on a well-formed response whose `value` list is empty,
the handler does not store an empty ResultSet — `pd.DataFrame([])` has no
columns, so `sort_values(by="relevance")` raises `KeyError: 'relevance'`
and the script run aborts instead of reaching the empty-results state. -/
theorem empty_value_sort_raises_keyerror :
    handle_search_results (some (some ([] : List MatchRecord)))
      = .error (.keyError "relevance") := by
  simp [handle_search_results, sort_values_relevance_desc]

/-- C4: the request payload built for mode Vision carries featureFilters
["vision"], the one for mode Speech carries ["speech"], and every payload
carries exactly one of the two singleton filter lists, so no payload ever
carries both tags. (`search_videos` sends `input_query query query_type`
by definition.) -/
theorem feature_filters_exclusive :
    ∀ query : String,
      (input_query query "Vision").featureFilters = ["vision"]
      ∧ (input_query query "Speech").featureFilters = ["speech"]
      ∧ ∀ query_type : String,
          (input_query query query_type).featureFilters = ["speech"]
          ∨ (input_query query query_type).featureFilters = ["vision"] := by
  intro q
  refine ⟨by simp [input_query], by simp [input_query], ?_⟩
  intro t
  unfold input_query
  by_cases h : t = "Speech"
  · simp [h]
  · simp [h]

/-- C5: if no document in the listing has the requested id, the scan in
`get_video_url` falls through and returns `None` without ever evaluating
the URL composition; if a matching entry exists (the first one found) and
signing succeeds, the returned URL is built from that document's base URL. -/
theorem get_video_url_not_found :
    ∀ (documents : List CatalogDoc) (document_id best_time : String)
      (sas : Except String String),
      ((∀ d ∈ documents, d.documentId ≠ document_id) →
        get_video_url_traced documents document_id best_time sas = (none, false))
      ∧ ∀ d, documents.find? (fun d => d.documentId == document_id) = some d →
          ∀ tok, sas = .ok tok →
            get_video_url documents document_id best_time sas
              = some (sas_url d.documentUrl best_time tok) := by
  intro documents document_id best_time sas
  constructor
  · intro hno
    induction documents with
    | nil => rfl
    | cons d rest ih =>
      have hd : d.documentId ≠ document_id := hno d (List.mem_cons_self d rest)
      simp [get_video_url_traced, hd,
        ih (fun x hx => hno x (List.mem_cons_of_mem d hx))]
  · intro d hfind tok hsas
    subst hsas
    induction documents with
    | nil => simp [List.find?] at hfind
    | cons a rest ih =>
      by_cases ha : a.documentId = document_id
      · have hbeq : (a.documentId == document_id) = true := by simp [ha]
        rw [List.find?_cons_of_pos (p := fun d => d.documentId == document_id) rest hbeq]
          at hfind
        have had : a = d := by injection hfind
        subst had
        simp [get_video_url, get_video_url_traced, ha]
      · have hbeq : ¬(a.documentId == document_id) = true := by simp [ha]
        rw [List.find?_cons_of_neg (p := fun d => d.documentId == document_id) rest hbeq]
          at hfind
        have hrec := ih hfind
        simp [get_video_url, get_video_url_traced, ha] at hrec ⊢
        exact hrec

/-- C5 witness: a one-document catalog; the unmatched id "doc2" returns
(None, no composition), and the matched id "doc1" returns the URL built
from that document's base URL. -/
theorem get_video_url_not_found_witness :
    get_video_url_traced [⟨"doc1", "https://x/doc1"⟩] "doc2" "00:00:05" (.ok "sv=...")
        = (none, false)
    ∧ get_video_url [⟨"doc1", "https://x/doc1"⟩] "doc1" "00:00:05" (.ok "tok")
        = some (sas_url "https://x/doc1" "00:00:05" "tok") :=
  ⟨(get_video_url_not_found [⟨"doc1", "https://x/doc1"⟩] "doc2" "00:00:05"
      (.ok "sv=...")).1 (by decide),
   (get_video_url_not_found [⟨"doc1", "https://x/doc1"⟩] "doc1" "00:00:05"
      (.ok "tok")).2 ⟨"doc1", "https://x/doc1"⟩ (by decide) "tok" rfl⟩

/-- C6: when the transport raises or the response status is an HTTP error
(400-599, the statuses `raise_for_status` raises for), `search_videos`
returns `None` (the SearchError signal); the caller then stores `None`
and shows "No results found." without raising — the failure is recovered,
not fatal. -/
theorem search_failure_shows_no_results :
    ∀ (query query_type : String) (transport : InputQuery → HttpOutcome),
      (transport (input_query query query_type) = .exn →
        search_videos query query_type transport = none)
      ∧ (∀ (status : ℕ) (body : SearchResponse),
          transport (input_query query query_type) = .response status body →
          400 ≤ status → status ≤ 599 →
          search_videos query query_type transport = none)
      ∧ handle_search_results none = .ok ⟨none, true⟩ := by
  intro q t transport
  refine ⟨?_, ?_, rfl⟩
  · intro h
    simp [search_videos, h]
  · intro st body h h4 h5
    simp [search_videos, h, h4, h5]

/-- C6 witness: a transport that raises, and one that returns HTTP 500. -/
theorem search_failure_shows_no_results_witness :
    search_videos "cats" "Vision" (fun _ => .exn) = none
    ∧ search_videos "cats" "Speech" (fun _ => .response 500 none) = none :=
  ⟨(search_failure_shows_no_results "cats" "Vision" (fun _ => .exn)).1 rfl,
   (search_failure_shows_no_results "cats" "Speech"
      (fun _ => .response 500 none)).2.1 500 none rfl (by norm_num) (by norm_num)⟩

/-- C8: every URL `get_video_url` produces is exactly
baseUrl + "?start=" + startTime + "&" + token for the matched document's
base URL; the source-side composition `sas_url` coincides with the spec's
`composeUrl`, and the spec's concrete example evaluates as stated. -/
theorem composed_url_shape :
    (∀ (documents : List CatalogDoc) (document_id best_time tok url : String),
      get_video_url documents document_id best_time (.ok tok) = some url →
      ∃ d ∈ documents, d.documentId = document_id
        ∧ url = composeUrl d.documentUrl best_time tok)
    ∧ (∀ baseUrl startTime token : String,
        sas_url baseUrl startTime token = composeUrl baseUrl startTime token)
    ∧ composeUrl "https://x/doc1" "00:00:05" "sv=..."
        = "https://x/doc1?start=00:00:05&sv=..." := by
  refine ⟨?_, fun _ _ _ => rfl, rfl⟩
  intro documents document_id best_time tok url hurl
  induction documents with
  | nil => simp [get_video_url, get_video_url_traced] at hurl
  | cons a rest ih =>
    by_cases ha : a.documentId = document_id
    · refine ⟨a, List.mem_cons_self a rest, ha, ?_⟩
      simp [get_video_url, get_video_url_traced, ha] at hurl
      exact hurl.symm
    · simp only [get_video_url, get_video_url_traced, ha, if_neg ha] at hurl
      obtain ⟨d, hd, hdid, hu⟩ := ih hurl
      exact ⟨d, List.mem_cons_of_mem a hd, hdid, hu⟩

/-- C8 witness: the shape theorem applied to a one-document catalog and
the concretely composed URL. -/
theorem composed_url_shape_witness :
    ∃ d ∈ [(⟨"doc1", "https://x/doc1"⟩ : CatalogDoc)], d.documentId = "doc1"
      ∧ "https://x/doc1?start=00:00:05&sv=..."
          = composeUrl d.documentUrl "00:00:05" "sv=..." :=
  composed_url_shape.1 [⟨"doc1", "https://x/doc1"⟩] "doc1" "00:00:05" "sv=..."
    "https://x/doc1?start=00:00:05&sv=..." (by decide)

/-- C9: selecting a different search mode runs `reset_search`, so after
the mode change both the stored results and the selected video are empty,
whatever they held before. -/
theorem mode_change_clears_results_and_selection :
    ∀ (s : SessionState) (new_type : String), new_type ≠ s.search_type →
      (change_search_type s new_type).search_results = none
      ∧ (change_search_type s new_type).selected_video = none := by
  intro s t h
  simp [change_search_type, h, reset_search]

/-- C9 witness: a session with five results and a selected video switches
from Vision to Speech; both fields are cleared. -/
theorem mode_change_clears_results_and_selection_witness :
    (change_search_type
        ⟨some [rec03, rec09, rec05, recA, recB],
          some ⟨"docA", "00:00:01", "00:00:01", "00:00:02", "video"⟩,
          "Vision"⟩ "Speech").search_results = none
    ∧ (change_search_type
        ⟨some [rec03, rec09, rec05, recA, recB],
          some ⟨"docA", "00:00:01", "00:00:01", "00:00:02", "video"⟩,
          "Vision"⟩ "Speech").selected_video = none :=
  mode_change_clears_results_and_selection _ "Speech" (by decide)

end VideoApp
